/-
A shallow embedding, in Lean 4, of the orchestration core of the
worldcoin/contract-deployer tool, together with theorems settling the
specification claims about it.

Modelling conventions:
* Addresses, group ids, tree depths and batch sizes are `Nat`
  (the source wraps `usize` / 160-bit addresses; no arithmetic is done
  on them, only equality, so `Nat` is adequate).
* Rust `HashMap<K, V>` values are association lists `List (K × V)` and
  `HashSet<K>` values are `List K`; the list order stands for the
  (unspecified) iteration order of the hash container, which is exactly
  the quantity the determinism claims range over.
* On-chain effects (forge create invocations and signed transactions)
  are reified as explicit action lists returned by each step, in the
  order the source performs them.  Fresh addresses produced by the
  external deployment collaborator are passed in as parameters.
* Fallible paths (eyre errors, `expect` panics) are modelled with
  `Option`; `none` is an aborted run.
-/
import Mathlib

/-- Association-list lookup, mirroring `HashMap::get`. -/
def lookupL {α β : Type} [DecidableEq α] : List (α × β) → α → Option β
  | [], _ => none
  | (k2, v) :: rest, k => if k2 = k then some v else lookupL rest k

/-- Association-list insert, mirroring `HashMap::insert`: replace the
binding if the key is present, otherwise add a new binding. -/
def insertEntry {α β : Type} [DecidableEq α] : List (α × β) → α → β → List (α × β)
  | [], k, v => [(k, v)]
  | (k2, v2) :: rest, k, v =>
    if k2 = k then (k, v) :: rest else (k2, v2) :: insertEntry rest k v

/-- report/contract_deployment.rs: `ContractDeployment { address }`. -/
structure ContractDeployment where
  address : Nat
deriving Repr, DecidableEq

/-- steps/verifiers.rs: `VerifierDeployment { deployment }`. -/
structure VerifierDeployment where
  deployment : ContractDeployment
deriving Repr, DecidableEq

/-- steps/verifiers.rs: `Verifiers`, keyed by `(TreeDepth, BatchSize)`. -/
structure Verifiers where
  verifiers : List ((Nat × Nat) × VerifierDeployment)
deriving Repr, DecidableEq

/-- steps/lookup_tables.rs: `LookupTable { deployment, entries }`,
`entries` mapping batch size to the registered verifier address. -/
structure LookupTable where
  deployment : ContractDeployment
  entries : List (Nat × Nat)
deriving Repr, DecidableEq

/-- steps/lookup_tables.rs: `GroupLookupTables { insert, update, delete }`. -/
structure GroupLookupTables where
  insert : Option LookupTable
  update : Option LookupTable
  delete : Option LookupTable
deriving Repr, DecidableEq

/-- steps/lookup_tables.rs: `LookupTables { groups }`. -/
structure LookupTables where
  groups : List (Nat × GroupLookupTables)
deriving Repr, DecidableEq

/-- One `updateVerifier(batchSize, verifierAddress)` transaction sent to a
lookup table (steps/lookup_tables.rs, `associate_group_batch_size_verifier`). -/
structure UpdateVerifierTx where
  table : Nat
  batchSize : Nat
  verifier : Nat
deriving Repr, DecidableEq

namespace lookup_tables

/-- Source: `config_batch_sizes.difference(&report_batch_sizes)` in
`update_lookup_table`; the list order is the set iteration order. -/
def batch_sizes_to_add_or_update (configBatchSizes reportBatchSizes : List Nat) : List Nat :=
  configBatchSizes.filter (fun b => !(reportBatchSizes.contains b))

/-- Source: `report_batch_sizes.difference(config_batch_sizes)` in
`update_lookup_table`; these sizes are only warned about. -/
def batch_sizes_to_disable (configBatchSizes reportBatchSizes : List Nat) : List Nat :=
  reportBatchSizes.filter (fun b => !(configBatchSizes.contains b))

/-- Source: `associate_group_batch_size_verifier`: look the verifier up by
`(tree_depth, batch_size)` (an absent verifier is a fatal error), send one
`updateVerifier` transaction to the lookup table, return the address. -/
def associate_group_batch_size_verifier (verifiers : Verifiers)
    (lookupTableAddress treeDepth batchSize : Nat) :
    Option (Nat × UpdateVerifierTx) :=
  match lookupL verifiers.verifiers (treeDepth, batchSize) with
  | none => none
  | some v =>
    some (v.deployment.address,
      ⟨lookupTableAddress, batchSize, v.deployment.address⟩)

/-- Outcome of `update_lookup_table`: the transactions sent (in iteration
order), the batch sizes that were merely warned about, and the updates map
`(group_id, batch_size) ↦ address` returned to the caller. -/
structure UpdateLookupTableResult where
  txs : List UpdateVerifierTx
  warnings : List Nat
  updates : List ((Nat × Nat) × Nat)
deriving Repr, DecidableEq

/-- The `for batch_size in batch_sizes_to_add_or_update` loop body of
`update_lookup_table`. -/
def update_lookup_table_go (verifiers : Verifiers) (groupId treeDepth tableAddr : Nat) :
    List Nat → Option (List UpdateVerifierTx × List ((Nat × Nat) × Nat))
  | [] => some ([], [])
  | b :: rest => do
    let (addr, tx) ← associate_group_batch_size_verifier verifiers tableAddr treeDepth b
    let (txs, ups) ← update_lookup_table_go verifiers groupId treeDepth tableAddr rest
    some (tx :: txs, ((groupId, b), addr) :: ups)

/-- steps/lookup_tables.rs `update_lookup_table`: diff the configured batch
sizes against the sizes recorded in the Report entry, send `updateVerifier`
for every size to add or update, and only warn about sizes to disable. -/
def update_lookup_table (verifiers : Verifiers) (groupId treeDepth : Nat)
    (table : LookupTable) (configBatchSizes : List Nat) :
    Option UpdateLookupTableResult :=
  let reportBatchSizes := table.entries.map Prod.fst
  let toAddOrUpdate := batch_sizes_to_add_or_update configBatchSizes reportBatchSizes
  let toDisable := batch_sizes_to_disable configBatchSizes reportBatchSizes
  match update_lookup_table_go verifiers groupId treeDepth table.deployment.address toAddOrUpdate with
  | none => none
  | some (txs, ups) => some ⟨txs, toDisable, ups⟩

/-- The caller merge in `deploy` (steps/lookup_tables.rs lines 187-207):
each returned update is inserted into the group table entries. -/
def apply_updates (entries : List (Nat × Nat)) :
    List ((Nat × Nat) × Nat) → List (Nat × Nat)
  | [] => entries
  | ((_, b), a) :: rest => apply_updates (insertEntry entries b a) rest

end lookup_tables

/-- Sanity check: a mixed add/keep/warn reconciliation evaluates as expected. -/
theorem update_lookup_table_sanity :
    lookup_tables.update_lookup_table ⟨[((30, 1), ⟨⟨100⟩⟩), ((30, 2), ⟨⟨200⟩⟩)]⟩ 0 30
      ⟨⟨7⟩, [(5, 99)]⟩ [1, 2] =
    some ⟨[⟨7, 1, 100⟩, ⟨7, 2, 200⟩], [5], [((0, 1), 100), ((0, 2), 200)]⟩ := by
  decide

/-- steps/world_id_router.rs: `WorldIdRouterDeployment`, with `entries`
mapping group id to the identity-manager address currently routed to. -/
structure WorldIdRouterDeployment where
  impl_v1_deployment : ContractDeployment
  proxy_deployment : ContractDeployment
  entries : List (Nat × Nat)
deriving Repr, DecidableEq

/-- The on-chain effects of the router step: the implementation and proxy
deployments and the `updateGroup` / `addGroup` / `disableGroup`
transactions sent through the helper functions of steps/world_id_router.rs. -/
inductive RouterAction where
  | deployImpl (address : Nat)
  | deployProxy (address implAddress seedAddress : Nat)
  | updateGroupTx (router groupId target : Nat)
  | addGroupTx (router groupId target : Nat)
  | disableGroupTx (router groupId : Nat)
deriving Repr, DecidableEq

namespace world_id_router

/-- Source: `deploy_world_id_router_v1`: reuse the Report deployment when present;
otherwise deploy the implementation, then the proxy with the group-0
identity-manager address encoded in the `initialize` constructor call data,
and seed `entries` with `{0 ↦ first_group_address}`. -/
def deploy_world_id_router_v1 (reportRouter : Option WorldIdRouterDeployment)
    (firstGroupAddress freshImpl freshProxy : Nat) :
    WorldIdRouterDeployment × List RouterAction :=
  match reportRouter with
  | some previous => (previous, [])
  | none =>
    (⟨⟨freshImpl⟩, ⟨freshProxy⟩, [(0, firstGroupAddress)]⟩,
     [.deployImpl freshImpl, .deployProxy freshProxy freshImpl firstGroupAddress])

/-- The inner removal loop of `deploy` (lines 215-230): walk the snapshot of
deployment entry keys and disable every group id absent from the config. -/
def remove_pass (configGroupIds : List Nat) (routerAddr : Nat) :
    List Nat → List (Nat × Nat) → List (Nat × Nat) × List RouterAction
  | [], entries => (entries, [])
  | k :: rest, entries =>
    if k ∈ configGroupIds then remove_pass configGroupIds routerAddr rest entries
    else
      let entries2 := entries.filter (fun p => !(p.fst == k))
      let (entries3, acts) := remove_pass configGroupIds routerAddr rest entries2
      (entries3, RouterAction.disableGroupTx routerAddr k :: acts)

/-- The `for group_id in group_ids` loop of `deploy` (lines 179-231): add or
update the route for each (sorted) configured group, then run the removal
pass over the current entry keys. -/
def group_loop (idm : List (Nat × Nat)) (configGroupIds : List Nat) :
    List Nat → WorldIdRouterDeployment → Option (WorldIdRouterDeployment × List RouterAction)
  | [], dep => some (dep, [])
  | g :: rest, dep => do
    let target ← lookupL idm g
    let (entries1, acts1) :=
      match lookupL dep.entries g with
      | some current =>
        if current ≠ target then
          (insertEntry dep.entries g target,
           [RouterAction.updateGroupTx dep.proxy_deployment.address g target])
        else (dep.entries, [])
      | none =>
        (dep.entries ++ [(g, target)],
         [RouterAction.addGroupTx dep.proxy_deployment.address g target])
    let keys := entries1.map Prod.fst
    let (entries2, acts2) := remove_pass configGroupIds dep.proxy_deployment.address keys entries1
    let (depFinal, actsRest) ← group_loop idm configGroupIds rest { dep with entries := entries2 }
    some (depFinal, acts1 ++ acts2 ++ actsRest)

/-- steps/world_id_router.rs `deploy`: look up group 0 (fatal if missing),
deploy or reuse the router, then apply routes in sorted group-id order.
`idm` is the identity-managers map (group id ↦ proxy address);
`configGroupIds` carries the iteration order of `config.groups.keys()`. -/
def deploy (reportRouter : Option WorldIdRouterDeployment)
    (configGroupIds : List Nat) (idm : List (Nat × Nat)) (freshImpl freshProxy : Nat) :
    Option (WorldIdRouterDeployment × List RouterAction) := do
  let firstGroupAddress ← lookupL idm 0
  let (dep0, acts0) :=
    deploy_world_id_router_v1 reportRouter firstGroupAddress freshImpl freshProxy
  let sortedIds := configGroupIds.insertionSort (· ≤ ·)
  let (depFinal, acts) ← group_loop idm configGroupIds sortedIds dep0
  some (depFinal, acts0 ++ acts)

end world_id_router

/-- Sanity check: the router bootstrap on a concrete input. -/
theorem router_deploy_sanity :
    world_id_router.deploy none [0, 1, 2] [(0, 10), (1, 11), (2, 12)] 1 2 =
    some (⟨⟨1⟩, ⟨2⟩, [(0, 10), (1, 11), (2, 12)]⟩,
      [.deployImpl 1, .deployProxy 2 1 10, .addGroupTx 2 1 11, .addGroupTx 2 2 12]) := by
  decide

/-- config.rs: `GroupConfig`. -/
structure GroupConfig where
  tree_depth : Nat
  insertion_batch_sizes : Option (List Nat)
  deletion_batch_sizes : Option (List Nat)
  initial_root : Option Nat
deriving Repr, DecidableEq

/-- config.rs: `MiscConfig`. -/
structure MiscConfig where
  initial_leaf_value : Nat
deriving Repr, DecidableEq

/-- config.rs: `Config`. -/
structure Config where
  groups : List (Nat × GroupConfig)
  misc : MiscConfig
deriving Repr, DecidableEq

/-- forge_utils.rs: `ForgeOutput`, reduced to the deployed address
(the only field the reconciliation core reads back). -/
structure ForgeOutput where
  deployed_to : Nat
deriving Repr, DecidableEq

/-- steps/semaphore_verifier.rs: `SemaphoreVerifierDeployment`. -/
structure SemaphoreVerifierDeployment where
  verifier_deployment : ForgeOutput
  pairing_deployment : ForgeOutput
deriving Repr, DecidableEq

/-- steps/identity_manager.rs: `WorldIdIdentityManagerDeployment`. -/
structure WorldIdIdentityManagerDeployment where
  impl_v1_deployment : Option ContractDeployment
  impl_v2_deployment : Option ContractDeployment
  proxy_deployment : ContractDeployment
deriving Repr, DecidableEq

/-- steps/identity_manager.rs: `WorldIDIdentityManagersDeployment`. -/
structure WorldIDIdentityManagersDeployment where
  groups : List (Nat × WorldIdIdentityManagerDeployment)
deriving Repr, DecidableEq

/-- report.rs: `Report` — the persisted deployment snapshot. -/
structure Report where
  config : Config
  insertion_verifiers : Option Verifiers
  deletion_verifiers : Option Verifiers
  lookup_tables : Option LookupTables
  semaphore_verifier : Option SemaphoreVerifierDeployment
  identity_managers : Option WorldIDIdentityManagersDeployment
  world_id_router : Option WorldIdRouterDeployment
deriving Repr, DecidableEq

/-- report.rs: `Report::default_with_config`. -/
def Report.default_with_config (config : Config) : Report :=
  ⟨config, none, none, none, none, none, none⟩

/-- mtb_utils.rs: `ProverMode`. -/
inductive Mode where
  | insertion
  | deletion
deriving Repr, DecidableEq

/-- Effects of the verifiers step: external artifact generation plus the
forge create deployment of a verifier contract. -/
inductive VerifierAction where
  | generateKeys (treeDepth batchSize : Nat) (mode : Mode)
  | generateContract (treeDepth batchSize : Nat) (mode : Mode)
  | forgeCreateVerifier (treeDepth batchSize : Nat)
deriving Repr, DecidableEq

namespace verifiers

/-- The verifier section `deploy_verifier_contract` consults: the source
reads `context.report.insertion_verifiers` (treated as empty when the
section is absent) — note it does so for BOTH prover modes. -/
def report_insertion_verifiers (report : Report) : Verifiers :=
  (report.insertion_verifiers).getD ⟨[]⟩

/-- steps/verifiers.rs `deploy_verifier_contract`: if the key is found in
the Report section, return the recorded deployment with no action,
otherwise run forge create.  The `mode` argument is not used in the lookup,
exactly as in the source. -/
def deploy_verifier_contract (report : Report) (treeDepth batchSize : Nat)
    (mode : Mode) (freshAddr : Nat) : ContractDeployment × List VerifierAction :=
  match lookupL (report_insertion_verifiers report).verifiers (treeDepth, batchSize) with
  | some existing => (existing.deployment, [])
  | none => (⟨freshAddr⟩, [VerifierAction.forgeCreateVerifier treeDepth batchSize])

/-- The per-key loop of steps/verifiers.rs `deploy`: generate keys and the
verifier contract, then deploy (or reuse) it.  `fresh` numbers the
addresses handed out by the deployment collaborator. -/
def deploy_go (report : Report) (mode : Mode) :
    List (Nat × Nat) → Nat → List ((Nat × Nat) × VerifierDeployment) × List VerifierAction
  | [], _ => ([], [])
  | (d, b) :: rest, fresh =>
    let genActs := [VerifierAction.generateKeys d b mode, VerifierAction.generateContract d b mode]
    let (dep, deployActs) := deploy_verifier_contract report d b mode fresh
    let (vs, acts) := deploy_go report mode rest (fresh + 1)
    (((d, b), ⟨dep⟩) :: vs, genActs ++ deployActs ++ acts)

/-- steps/verifiers.rs `deploy`, with the iteration order of
`config.unique_tree_depths_and_batch_sizes(mode)` passed in as `keys`. -/
def deploy (report : Report) (mode : Mode) (keys : List (Nat × Nat)) (freshBase : Nat) :
    Verifiers × List VerifierAction :=
  let (vs, acts) := deploy_go report mode keys freshBase
  (⟨vs⟩, acts)

/-- The on-chain actions among a verifier step's effects (artifact
generation is local; only forge create submits a transaction). -/
def on_chain_creates (acts : List VerifierAction) : List VerifierAction :=
  acts.filter (fun a => match a with
    | VerifierAction.forgeCreateVerifier _ _ => true
    | _ => false)

end verifiers

/-- Effects of the semaphore-verifier step. -/
inductive SemaphoreAction where
  | forgeCreatePairing (address : Nat)
  | forgeCreateSemaphoreVerifier (address pairingAddress : Nat)
deriving Repr, DecidableEq

namespace semaphore_verifier

/-- steps/semaphore_verifier.rs `deploy_semaphore_pairing_library`. -/
def deploy_semaphore_pairing_library (report : Report) (fresh : Nat) :
    ForgeOutput × List SemaphoreAction :=
  match report.semaphore_verifier with
  | some previous => (previous.pairing_deployment, [])
  | none => (⟨fresh⟩, [SemaphoreAction.forgeCreatePairing fresh])

/-- steps/semaphore_verifier.rs `deploy_semaphore_verifier`. -/
def deploy_semaphore_verifier (report : Report) (pairingAddress fresh : Nat) :
    ForgeOutput × List SemaphoreAction :=
  match report.semaphore_verifier with
  | some previous => (previous.verifier_deployment, [])
  | none => (⟨fresh⟩, [SemaphoreAction.forgeCreateSemaphoreVerifier fresh pairingAddress])

/-- steps/semaphore_verifier.rs `deploy`. -/
def deploy (report : Report) (freshPairing freshVerifier : Nat) :
    SemaphoreVerifierDeployment × List SemaphoreAction :=
  let (pairing_deployment, acts1) := deploy_semaphore_pairing_library report freshPairing
  let (verifier_deployment, acts2) :=
    deploy_semaphore_verifier report pairing_deployment.deployed_to freshVerifier
  (⟨verifier_deployment, pairing_deployment⟩, acts1 ++ acts2)

end semaphore_verifier

namespace assemble_report

/-- steps/assemble_report.rs `assemble_report_semaphore_verifier`: the
Report persisted after a semaphore-verifier-scoped run.  Every other
section is written out as absent. -/
def assemble_report_semaphore_verifier (config : Config)
    (semaphoreVerifier : Option SemaphoreVerifierDeployment) : Report :=
  { config := config
    insertion_verifiers := none
    deletion_verifiers := none
    lookup_tables := none
    semaphore_verifier := semaphoreVerifier
    identity_managers := none
    world_id_router := none }

/-- steps/assemble_report.rs `assemble_report_deletion_verifiers`: the
Report persisted after a deletion-verifiers-scoped run. -/
def assemble_report_deletion_verifiers (config : Config)
    (deletionVerifiers : Option Verifiers) : Report :=
  { config := config
    insertion_verifiers := none
    deletion_verifiers := deletionVerifiers
    lookup_tables := none
    semaphore_verifier := none
    identity_managers := none
    world_id_router := none }

end assemble_report

namespace deployment

/-- deployment.rs `semaphore_verifier_deployment`: run the semaphore step
against the loaded Report, then persist via
`assemble_report_semaphore_verifier`.  Returns the persisted Report and
the actions performed. -/
def semaphore_verifier_deployment (report : Report) (config : Config)
    (freshPairing freshVerifier : Nat) : Report × List SemaphoreAction :=
  let (sv, acts) := semaphore_verifier.deploy report freshPairing freshVerifier
  (assemble_report.assemble_report_semaphore_verifier config (some sv), acts)

end deployment

/-- Effects of the identity-manager step: implementation/proxy deployments
and the `upgradeToAndCall` transaction, whose call data carries the v2
implementation and the delete lookup-table address (initializeV2). -/
inductive IdmAction where
  | deployImplV1 (address : Nat)
  | deployProxy (address implAddress : Nat)
  | deployImplV2 (address : Nat)
  | upgradeToAndCall (proxy implV2 deleteTable : Nat)
deriving Repr, DecidableEq

namespace identity_manager

/-- steps/identity_manager.rs `upgrade_v1_to_v2`: deploy the v2
implementation, look up the group's delete lookup table (fatal when
missing), send one `upgradeToAndCall` transaction to the existing proxy,
and return the deployment with the old implementation discarded and the
proxy preserved. -/
def upgrade_v1_to_v2 (lookupTables : LookupTables) (groupId : Nat)
    (v1Deployment : WorldIdIdentityManagerDeployment) (freshImplV2 : Nat) :
    Option (WorldIdIdentityManagerDeployment × List IdmAction) := do
  let groupLookupTables ← lookupL lookupTables.groups groupId
  let deleteTable ← groupLookupTables.delete
  some ({ impl_v1_deployment := none
          impl_v2_deployment := some ⟨freshImplV2⟩
          proxy_deployment := v1Deployment.proxy_deployment },
        [IdmAction.deployImplV2 freshImplV2,
         IdmAction.upgradeToAndCall v1Deployment.proxy_deployment.address freshImplV2
           deleteTable.deployment.address])

/-- The identity-managers section read by the step; the source accesses
`context.report.identity_managers.groups`, with an absent section behaving
as the empty (default) map. -/
def report_identity_manager_groups (report : Report) :
    List (Nat × WorldIdIdentityManagerDeployment) :=
  match report.identity_managers with
  | some d => d.groups
  | none => []

/-- steps/identity_manager.rs `deploy_world_id_identity_manager_v1_for_group`:
with a Report entry at v1-only, upgrade it; with a Report entry at v2, skip;
with an entry in any other shape, bail.  With no entry, deploy the v1
implementation and the proxy (requiring group config and the group's insert
and update lookup tables) and immediately upgrade to v2. -/
def deploy_world_id_identity_manager_v1_for_group
    (report : Report) (config : Config) (groupId : Nat)
    (lookupTables : LookupTables) (freshImplV1 freshProxy freshImplV2 : Nat) :
    Option (WorldIdIdentityManagerDeployment × List IdmAction) :=
  match lookupL (report_identity_manager_groups report) groupId with
  | some deployment =>
    if deployment.impl_v1_deployment.isSome && deployment.impl_v2_deployment.isNone then
      upgrade_v1_to_v2 lookupTables groupId deployment freshImplV2
    else if deployment.impl_v2_deployment.isSome then
      some (deployment, [])
    else
      none
  | none => do
    let _groupConfig ← lookupL config.groups groupId
    let groupLookupTables ← lookupL lookupTables.groups groupId
    let _insertTable ← groupLookupTables.insert
    let _updateTable ← groupLookupTables.update
    let v1Deployment : WorldIdIdentityManagerDeployment :=
      { impl_v1_deployment := some ⟨freshImplV1⟩
        impl_v2_deployment := none
        proxy_deployment := ⟨freshProxy⟩ }
    let (finalDeployment, upgradeActs) ←
      upgrade_v1_to_v2 lookupTables groupId v1Deployment freshImplV2
    some (finalDeployment,
      IdmAction.deployImplV1 freshImplV1 ::
      IdmAction.deployProxy freshProxy freshImplV1 :: upgradeActs)

/-- The `upgradeToAndCall` transactions among the step's actions. -/
def upgrade_txs (acts : List IdmAction) : List IdmAction :=
  acts.filter (fun a => match a with
    | IdmAction.upgradeToAndCall _ _ _ => true
    | _ => false)

end identity_manager

namespace dependency_map

/-- dependency_map.rs `NotifyCell`, together with the bookkeeping needed to
model `tokio::sync::Notify` and the get() callers: `permit` is the single
stored permit `notify_one` leaves when nobody is parked, `parked` counts
callers suspended in `notified().await`, and `served` lists the values
returned by completed `get` calls in completion order. -/
structure NotifyCell (V : Type) where
  value : Option V
  permit : Bool
  parked : Nat
  served : List V
deriving Repr, DecidableEq

/-- The freshly created cell (`or_insert_with` in the source). -/
def initCell (V : Type) : NotifyCell V := ⟨none, false, 0, []⟩

/-- dependency_map.rs `DependencyMap::set`: install the value, then
`notify.notify_one()` — with a parked waiter, exactly one waiter is woken
(it re-locks and returns the now-present value); with none, a single permit
is stored. -/
def set {V : Type} (c : NotifyCell V) (v : V) : NotifyCell V :=
  let c2 := { c with value := some v }
  if c2.parked > 0 then
    { c2 with parked := c2.parked - 1, served := c2.served ++ [v] }
  else
    { c2 with permit := true }

/-- dependency_map.rs `DependencyMap::get`: under the lock, return the value
when present (no suspension); otherwise drop the lock and suspend in
`notified().await`.  A stored permit would let `notified()` return at once,
but a permit implies a prior `set`, which installed the value first, so that
branch is unreachable in any trace; without a permit the caller parks. -/
def get {V : Type} (c : NotifyCell V) : NotifyCell V :=
  match c.value with
  | some v => { c with served := c.served ++ [v] }
  | none =>
    if c.permit then { c with permit := false }
    else { c with parked := c.parked + 1 }

/-- Events against one type-keyed slot. -/
inductive DepEvent (V : Type) where
  | get
  | set (v : V)
deriving Repr, DecidableEq

/-- One scheduler step. -/
def step {V : Type} (c : NotifyCell V) : DepEvent V → NotifyCell V
  | DepEvent.get => get c
  | DepEvent.set v => set c v

/-- Run a whole schedule from the fresh cell. -/
def run (V : Type) (events : List (DepEvent V)) : NotifyCell V :=
  events.foldl step (initCell V)

end dependency_map

/-! ## Supporting lemmas -/

theorem lookupL_insertEntry_ne {β : Type} (l : List (Nat × β)) (k b : Nat) (v : β)
    (h : k ≠ b) : lookupL (insertEntry l k v) b = lookupL l b := by
  induction l with
  | nil => simp [insertEntry, lookupL, h]
  | cons p rest ih =>
    obtain ⟨k2, v2⟩ := p
    by_cases hk : k2 = k
    · subst hk
      simp [insertEntry, lookupL, h]
    · simp [insertEntry, lookupL, hk, ih]

theorem lookupL_apply_updates_not_mem (ups : List ((Nat × Nat) × Nat))
    (entries : List (Nat × Nat)) (b : Nat)
    (h : ∀ u ∈ ups, u.fst.snd ≠ b) :
    lookupL (lookup_tables.apply_updates entries ups) b = lookupL entries b := by
  induction ups generalizing entries with
  | nil => rfl
  | cons u rest ih =>
    obtain ⟨⟨g, bs⟩, a⟩ := u
    have hbs : bs ≠ b := h ⟨⟨g, bs⟩, a⟩ (List.mem_cons_self _ _)
    have hrest : ∀ u ∈ rest, u.fst.snd ≠ b := fun u hu => h u (List.mem_cons_of_mem _ hu)
    calc lookupL (lookup_tables.apply_updates entries (((g, bs), a) :: rest)) b
        = lookupL (lookup_tables.apply_updates (insertEntry entries bs a) rest) b := rfl
      _ = lookupL (insertEntry entries bs a) b := ih _ hrest
      _ = lookupL entries b := lookupL_insertEntry_ne _ _ _ _ hbs

theorem update_lookup_table_go_spec (verifiers : Verifiers) (g d ta : Nat) :
    ∀ (l : List Nat) (txs : List UpdateVerifierTx) (ups : List ((Nat × Nat) × Nat)),
      lookup_tables.update_lookup_table_go verifiers g d ta l = some (txs, ups) →
      txs.map (fun tx => tx.batchSize) = l ∧ ups.map (fun u => u.fst.snd) = l := by
  intro l
  induction l with
  | nil =>
    intro txs ups h
    simp [lookup_tables.update_lookup_table_go] at h
    simp [h.1, h.2]
  | cons b rest ih =>
    intro txs ups h
    unfold lookup_tables.update_lookup_table_go at h
    cases ha : lookup_tables.associate_group_batch_size_verifier verifiers ta d b with
    | none => rw [ha] at h; simp at h
    | some p =>
      obtain ⟨addr, tx⟩ := p
      rw [ha] at h
      cases hgo : lookup_tables.update_lookup_table_go verifiers g d ta rest with
      | none => rw [hgo] at h; simp at h
      | some q =>
        obtain ⟨txs2, ups2⟩ := q
        rw [hgo] at h
        simp only [Option.bind_eq_bind, Option.some_bind, Option.some_inj,
          Prod.mk.injEq] at h
        obtain ⟨htxs, hups⟩ := h
        have hspec := ih txs2 ups2 hgo
        have htb : tx.batchSize = b := by
          unfold lookup_tables.associate_group_batch_size_verifier at ha
          cases hv : lookupL verifiers.verifiers (d, b) with
          | none => rw [hv] at ha; simp at ha
          | some v =>
            rw [hv] at ha
            simp at ha
            rw [← ha.2]
        subst htxs
        subst hups
        constructor
        · simp [htb, hspec.1]
        · simp [hspec.2]

/-! ## Claim C1 -/

/-- C1 counterexample: batch size 5 is recorded in the Report lookup-table
entry and absent from the config (the toRemove set is {5}), yet the step
issues zero transactions — the size only lands in the warning list.  The
embedded step has no disable-verifier transaction at all, so the claimed
automatic on-chain removal does not happen. -/
theorem lookup_table_disable_never_sent :
    lookup_tables.update_lookup_table ⟨[]⟩ 0 30 ⟨⟨7⟩, [(5, 99)]⟩ [] =
      some ⟨[], [5], []⟩ := by
  decide

/-- C1 amended: for every group and mode, batch sizes recorded in the
Report's lookup-table entries but absent from the config (the toRemove set)
are only warned about ("will not be disabled - remove it manually"); no
transaction of the step touches them. -/
theorem lookup_table_toRemove_only_warned
    (verifiers : Verifiers) (groupId treeDepth : Nat) (table : LookupTable)
    (configBatchSizes : List Nat) (r : lookup_tables.UpdateLookupTableResult)
    (h : lookup_tables.update_lookup_table verifiers groupId treeDepth table
      configBatchSizes = some r) :
    r.warnings =
      lookup_tables.batch_sizes_to_disable configBatchSizes (table.entries.map Prod.fst) ∧
    ∀ b ∈ r.warnings, ∀ tx ∈ r.txs, tx.batchSize ≠ b := by
  simp only [lookup_tables.update_lookup_table] at h
  cases hgo : lookup_tables.update_lookup_table_go verifiers groupId treeDepth
      table.deployment.address
      (lookup_tables.batch_sizes_to_add_or_update configBatchSizes
        (table.entries.map Prod.fst)) with
  | none => rw [hgo] at h; simp at h
  | some p =>
    obtain ⟨txs, ups⟩ := p
    rw [hgo] at h
    simp only [Option.some_inj] at h
    subst h
    refine ⟨rfl, ?_⟩
    intro b hb tx htx
    have hspec := update_lookup_table_go_spec verifiers groupId treeDepth
      table.deployment.address _ txs ups hgo
    have htxmem : tx.batchSize ∈ lookup_tables.batch_sizes_to_add_or_update
        configBatchSizes (table.entries.map Prod.fst) := by
      rw [← hspec.1]
      exact List.mem_map_of_mem _ htx
    have hincfg : tx.batchSize ∈ configBatchSizes :=
      (List.mem_filter.mp htxmem).1
    have hbnot : b ∉ configBatchSizes := by
      have hfb := (List.mem_filter.mp hb).2
      simp [List.contains] at hfb
      exact hfb
    intro heq
    rw [heq] at hincfg
    exact hbnot hincfg

/-- C1 witness for the amended theorem at a concrete input. -/
theorem lookup_table_toRemove_only_warned_witness :
    (⟨[⟨7, 1, 100⟩], [5], [((0, 1), 100)]⟩ :
        lookup_tables.UpdateLookupTableResult).warnings =
      lookup_tables.batch_sizes_to_disable [1]
        ((⟨⟨7⟩, [(5, 99)]⟩ : LookupTable).entries.map Prod.fst) ∧
    ∀ b ∈ (⟨[⟨7, 1, 100⟩], [5], [((0, 1), 100)]⟩ :
        lookup_tables.UpdateLookupTableResult).warnings,
      ∀ tx ∈ (⟨[⟨7, 1, 100⟩], [5], [((0, 1), 100)]⟩ :
        lookup_tables.UpdateLookupTableResult).txs, tx.batchSize ≠ b :=
  lookup_table_toRemove_only_warned ⟨[((30, 1), ⟨⟨100⟩⟩)]⟩ 0 30 ⟨⟨7⟩, [(5, 99)]⟩ [1]
    ⟨[⟨7, 1, 100⟩], [5], [((0, 1), 100)]⟩ (by decide)

/-! ## Claim C6 -/

/-- C6: the reconciliation computes toCreateOrUpdate as desired − existing
and toRemove as existing − desired, takes no action on the intersection
(and `update_lookup_table` leaves the recorded entry of every intersection
key unchanged after the caller merge), and on desired = {1,2,3},
existing = {2,3,4} yields toCreateOrUpdate = {1}, toRemove = {4},
unchanged = {2,3}. -/
theorem reconciliation_diff_correct :
    (∀ desired existing : List Nat,
      (lookup_tables.batch_sizes_to_add_or_update desired existing).toFinset =
        desired.toFinset \ existing.toFinset) ∧
    (∀ desired existing : List Nat,
      (lookup_tables.batch_sizes_to_disable desired existing).toFinset =
        existing.toFinset \ desired.toFinset) ∧
    (∀ desired existing : List Nat, ∀ b ∈ desired.toFinset ∩ existing.toFinset,
      b ∉ lookup_tables.batch_sizes_to_add_or_update desired existing ∧
      b ∉ lookup_tables.batch_sizes_to_disable desired existing) ∧
    (∀ (verifiers : Verifiers) (groupId treeDepth : Nat) (table : LookupTable)
        (configBatchSizes : List Nat) (r : lookup_tables.UpdateLookupTableResult),
      lookup_tables.update_lookup_table verifiers groupId treeDepth table
        configBatchSizes = some r →
      ∀ b ∈ configBatchSizes.toFinset ∩ (table.entries.map Prod.fst).toFinset,
        lookupL (lookup_tables.apply_updates table.entries r.updates) b =
          lookupL table.entries b) ∧
    lookup_tables.batch_sizes_to_add_or_update [1, 2, 3] [2, 3, 4] = [1] ∧
    lookup_tables.batch_sizes_to_disable [1, 2, 3] [2, 3, 4] = [4] ∧
    ([1, 2, 3] : List Nat).toFinset ∩ ([2, 3, 4] : List Nat).toFinset = {2, 3} := by
  refine ⟨?_, ?_, ?_, ?_, by decide, by decide, by decide⟩
  · intro desired existing
    ext b
    simp [lookup_tables.batch_sizes_to_add_or_update, List.mem_filter, List.contains]
  · intro desired existing
    ext b
    simp [lookup_tables.batch_sizes_to_disable, List.mem_filter, List.contains]
  · intro desired existing b hb
    simp only [Finset.mem_inter, List.mem_toFinset] at hb
    constructor
    · intro hmem
      have := (List.mem_filter.mp hmem).2
      simp [List.contains] at this
      exact this hb.2
    · intro hmem
      have := (List.mem_filter.mp hmem).2
      simp [List.contains] at this
      exact this hb.1
  · intro verifiers groupId treeDepth table configBatchSizes r h b hb
    simp only [Finset.mem_inter, List.mem_toFinset] at hb
    simp only [lookup_tables.update_lookup_table] at h
    cases hgo : lookup_tables.update_lookup_table_go verifiers groupId treeDepth
        table.deployment.address
        (lookup_tables.batch_sizes_to_add_or_update configBatchSizes
          (table.entries.map Prod.fst)) with
    | none => rw [hgo] at h; simp at h
    | some p =>
      obtain ⟨txs, ups⟩ := p
      rw [hgo] at h
      simp only [Option.some_inj] at h
      subst h
      have hspec := update_lookup_table_go_spec verifiers groupId treeDepth
        table.deployment.address _ txs ups hgo
      refine lookupL_apply_updates_not_mem _ _ _ ?_
      intro u hu heq
      have humem : u.fst.snd ∈ lookup_tables.batch_sizes_to_add_or_update
          configBatchSizes (table.entries.map Prod.fst) := by
        rw [← hspec.2]
        exact List.mem_map_of_mem _ hu
      have h2 := (List.mem_filter.mp humem).2
      rw [heq] at h2
      simp only [List.contains, List.elem_eq_mem, Bool.not_eq_true',
        decide_eq_false_iff_not] at h2
      exact h2 hb.2

/-- C6 witness at a concrete input: batch size 2 lies in the intersection
and its recorded entry survives the caller merge unchanged. -/
theorem reconciliation_diff_correct_witness :
    lookupL (lookup_tables.apply_updates
      (⟨⟨7⟩, [(2, 9)]⟩ : LookupTable).entries
      (⟨[⟨7, 1, 100⟩], [], [((0, 1), 100)]⟩ :
        lookup_tables.UpdateLookupTableResult).updates) 2 =
      lookupL (⟨⟨7⟩, [(2, 9)]⟩ : LookupTable).entries 2 :=
  reconciliation_diff_correct.2.2.2.1 ⟨[((30, 1), ⟨⟨100⟩⟩)]⟩ 0 30 ⟨⟨7⟩, [(2, 9)]⟩
    [1, 2] ⟨[⟨7, 1, 100⟩], [], [((0, 1), 100)]⟩ (by decide) 2 (by decide)

/-! ## Claim C7: counterexample -/

/-- C7 counterexample: the same desired batch-size set iterated in two
different orders produces two different transaction sequences in the
lookup-table step — the step applies actions in hash-set iteration order,
not in sorted order. -/
theorem lookup_table_tx_order_not_deterministic :
    lookup_tables.update_lookup_table ⟨[((30, 1), ⟨⟨100⟩⟩), ((30, 2), ⟨⟨200⟩⟩)]⟩
      0 30 ⟨⟨7⟩, []⟩ [1, 2] ≠
    lookup_tables.update_lookup_table ⟨[((30, 1), ⟨⟨100⟩⟩), ((30, 2), ⟨⟨200⟩⟩)]⟩
      0 30 ⟨⟨7⟩, []⟩ [2, 1] := by
  decide

/-! ## Claim C7: amended theorem (router determinism) -/

theorem remove_pass_perm_congr (ids1 ids2 : List Nat) (h : ids1.Perm ids2)
    (routerAddr : Nat) (ks : List Nat) (entries : List (Nat × Nat)) :
    world_id_router.remove_pass ids1 routerAddr ks entries =
      world_id_router.remove_pass ids2 routerAddr ks entries := by
  induction ks generalizing entries with
  | nil => rfl
  | cons k rest ih =>
    by_cases hk : k ∈ ids1
    · have hk2 : k ∈ ids2 := h.mem_iff.mp hk
      simp [world_id_router.remove_pass, hk, hk2, ih]
    · have hk2 : k ∉ ids2 := fun hx => hk (h.mem_iff.mpr hx)
      simp [world_id_router.remove_pass, hk, hk2, ih]

theorem group_loop_perm_congr (idm : List (Nat × Nat)) (ids1 ids2 : List Nat)
    (h : ids1.Perm ids2) (l : List Nat) (dep : WorldIdRouterDeployment) :
    world_id_router.group_loop idm ids1 l dep =
      world_id_router.group_loop idm ids2 l dep := by
  induction l generalizing dep with
  | nil => rfl
  | cons g rest ih =>
    simp only [world_id_router.group_loop]
    cases lookupL idm g with
    | none => rfl
    | some target =>
      simp only [Option.bind_eq_bind, Option.some_bind]
      rw [remove_pass_perm_congr ids1 ids2 h]
      cases lookupL dep.entries g with
      | none => rw [ih]
      | some current => by_cases hc : current ≠ target <;> simp [hc, ih]

/-- C7 amended: only the router step applies actions in sorted group-id
order, so its transaction sequence is the same no matter in which order the
config group set is iterated; the lookup-table step (see the
counterexample) applies actions in raw iteration order. -/
theorem router_action_order_deterministic
    (reportRouter : Option WorldIdRouterDeployment) (ids1 ids2 : List Nat)
    (idm : List (Nat × Nat)) (freshImpl freshProxy : Nat) (h : ids1.Perm ids2) :
    world_id_router.deploy reportRouter ids1 idm freshImpl freshProxy =
      world_id_router.deploy reportRouter ids2 idm freshImpl freshProxy := by
  have hsort : ids1.insertionSort (· ≤ ·) = ids2.insertionSort (· ≤ ·) :=
    List.eq_of_perm_of_sorted
      ((List.perm_insertionSort _ _).trans (h.trans (List.perm_insertionSort _ _).symm))
      (List.sorted_insertionSort _ _) (List.sorted_insertionSort _ _)
  simp only [world_id_router.deploy]
  cases lookupL idm 0 with
  | none => rfl
  | some firstAddr =>
    simp only [Option.bind_eq_bind, Option.some_bind]
    rw [hsort, group_loop_perm_congr idm ids1 ids2 h]

/-- C7 witness: two iteration orders of the group set {0,1,2} produce the
same router run. -/
theorem router_action_order_deterministic_witness :
    world_id_router.deploy none [2, 0, 1] [(0, 10), (1, 11), (2, 12)] 1 2 =
      world_id_router.deploy none [0, 1, 2] [(0, 10), (1, 11), (2, 12)] 1 2 :=
  router_action_order_deterministic none [2, 0, 1] [0, 1, 2]
    [(0, 10), (1, 11), (2, 12)] 1 2 (by decide)

/-! ## Claim C9 -/

/-- C9: reconciling an empty Report against config groups {0,1,2} deploys
the router exactly once, seeded (via the initialize constructor call data)
with group 0's identity-manager address, then issues exactly two addGroup
transactions (for groups 1 and 2) and zero updateGroup transactions. -/
theorem router_bootstrap_actions (a b c freshImpl freshProxy : Nat) :
    world_id_router.deploy none [0, 1, 2] [(0, a), (1, b), (2, c)] freshImpl freshProxy =
      some (⟨⟨freshImpl⟩, ⟨freshProxy⟩, [(0, a), (1, b), (2, c)]⟩,
        [RouterAction.deployImpl freshImpl,
         RouterAction.deployProxy freshProxy freshImpl a,
         RouterAction.addGroupTx freshProxy 1 b,
         RouterAction.addGroupTx freshProxy 2 c]) := by
  simp [world_id_router.deploy, world_id_router.deploy_world_id_router_v1,
    world_id_router.group_loop, world_id_router.remove_pass, lookupL,
    List.insertionSort, List.orderedInsert]

/-! ## Claim C2 -/

/-- C2 counterexample: a Report carrying a lookup-tables section recorded by
a previously completed lookup-tables run loses that section when a run
scoped to the semaphore-verifier stage persists its checkpoint — the
scoped assemble function writes every other section out as absent. -/
theorem semaphore_scoped_run_erases_lookup_tables :
    (deployment.semaphore_verifier_deployment
      { config := ⟨[], ⟨0⟩⟩
        insertion_verifiers := none
        deletion_verifiers := none
        lookup_tables := some ⟨[(0, ⟨some ⟨⟨7⟩, []⟩, none, none⟩)]⟩
        semaphore_verifier := none
        identity_managers := none
        world_id_router := none }
      ⟨[], ⟨0⟩⟩ 1 2).fst.lookup_tables = none := by
  decide

/-- C2 amended: a run scoped to the semaphore-verifier stage persists a
Report holding only that stage's section; every section recorded by other
stages is overwritten with absent.  The stage's own checkpoint is the
resumption point: when the prior Report already records the semaphore
verifier, the deployment is carried over unchanged and the run performs
zero actions. -/
theorem semaphore_scoped_run_persisted_sections (report : Report) (config : Config)
    (freshPairing freshVerifier : Nat) :
    (deployment.semaphore_verifier_deployment report config freshPairing
        freshVerifier).fst.insertion_verifiers = none ∧
    (deployment.semaphore_verifier_deployment report config freshPairing
        freshVerifier).fst.deletion_verifiers = none ∧
    (deployment.semaphore_verifier_deployment report config freshPairing
        freshVerifier).fst.lookup_tables = none ∧
    (deployment.semaphore_verifier_deployment report config freshPairing
        freshVerifier).fst.identity_managers = none ∧
    (deployment.semaphore_verifier_deployment report config freshPairing
        freshVerifier).fst.world_id_router = none ∧
    (∀ s, report.semaphore_verifier = some s →
      (deployment.semaphore_verifier_deployment report config freshPairing
          freshVerifier).fst.semaphore_verifier = some s ∧
      (deployment.semaphore_verifier_deployment report config freshPairing
          freshVerifier).snd = []) := by
  cases hrep : report.semaphore_verifier with
  | none =>
    simp [deployment.semaphore_verifier_deployment, semaphore_verifier.deploy,
      semaphore_verifier.deploy_semaphore_pairing_library,
      semaphore_verifier.deploy_semaphore_verifier,
      assemble_report.assemble_report_semaphore_verifier, hrep]
  | some s0 =>
    simp [deployment.semaphore_verifier_deployment, semaphore_verifier.deploy,
      semaphore_verifier.deploy_semaphore_pairing_library,
      semaphore_verifier.deploy_semaphore_verifier,
      assemble_report.assemble_report_semaphore_verifier, hrep]

/-- C2 witness: on a Report already recording the semaphore verifier, the
scoped run keeps that section and performs zero actions. -/
theorem semaphore_scoped_run_persisted_sections_witness :
    (deployment.semaphore_verifier_deployment
      { config := ⟨[], ⟨0⟩⟩
        insertion_verifiers := none
        deletion_verifiers := none
        lookup_tables := none
        semaphore_verifier := some ⟨⟨5⟩, ⟨6⟩⟩
        identity_managers := none
        world_id_router := none }
      ⟨[], ⟨0⟩⟩ 1 2).fst.semaphore_verifier = some ⟨⟨5⟩, ⟨6⟩⟩ ∧
    (deployment.semaphore_verifier_deployment
      { config := ⟨[], ⟨0⟩⟩
        insertion_verifiers := none
        deletion_verifiers := none
        lookup_tables := none
        semaphore_verifier := some ⟨⟨5⟩, ⟨6⟩⟩
        identity_managers := none
        world_id_router := none }
      ⟨[], ⟨0⟩⟩ 1 2).snd = [] :=
  (semaphore_scoped_run_persisted_sections
    { config := ⟨[], ⟨0⟩⟩
      insertion_verifiers := none
      deletion_verifiers := none
      lookup_tables := none
      semaphore_verifier := some ⟨⟨5⟩, ⟨6⟩⟩
      identity_managers := none
      world_id_router := none }
    ⟨[], ⟨0⟩⟩ 1 2).2.2.2.2.2 ⟨⟨5⟩, ⟨6⟩⟩ rfl

/-! ## Claim C3 -/

/-- C3: idempotence fails for the deletion-verifier resource kind.  A
first deletion-verifiers run over desired key set {(30,10)} records its
deployment in the Report (deletion section, as
`assemble_report_deletion_verifiers` persists it); re-running the very
same step over the very same desired set against that Report performs one
on-chain forge create instead of zero, because `deploy_verifier_contract`
consults the insertion section for both modes. -/
theorem deletion_verifiers_rerun_redeploys :
    (let cfg : Config := ⟨[(0, ⟨30, some [], some [10], none⟩)], ⟨0⟩⟩
     let firstRun := verifiers.deploy (Report.default_with_config cfg)
       Mode.deletion [(30, 10)] 100
     let persisted := assemble_report.assemble_report_deletion_verifiers cfg
       (some firstRun.fst)
     verifiers.on_chain_creates
       (verifiers.deploy persisted Mode.deletion [(30, 10)] 500).snd) =
    [VerifierAction.forgeCreateVerifier 30 10] := by
  decide

/-! ## Claim C4 -/

/-- C4: a deletion verifier recorded in the Report under the key (30,10),
with the key still desired, is nevertheless re-deployed: the lookup in
`deploy_verifier_contract` reads only the insertion-verifiers section.
The second conjunct shows the contrast: the same key recorded in the
insertion section is returned as-is with zero actions. -/
theorem recorded_deletion_verifier_redeployed :
    verifiers.deploy_verifier_contract
      { config := ⟨[], ⟨0⟩⟩
        insertion_verifiers := none
        deletion_verifiers := some ⟨[((30, 10), ⟨⟨100⟩⟩)]⟩
        lookup_tables := none
        semaphore_verifier := none
        identity_managers := none
        world_id_router := none }
      30 10 Mode.deletion 500 =
      (⟨500⟩, [VerifierAction.forgeCreateVerifier 30 10]) ∧
    verifiers.deploy_verifier_contract
      { config := ⟨[], ⟨0⟩⟩
        insertion_verifiers := some ⟨[((30, 10), ⟨⟨100⟩⟩)]⟩
        deletion_verifiers := none
        lookup_tables := none
        semaphore_verifier := none
        identity_managers := none
        world_id_router := none }
      30 10 Mode.insertion 500 = (⟨100⟩, []) := by
  decide

/-! ## Claim C5 -/

/-- C5: with a Report entry for the group at v1-only (impl v1 recorded, no
impl v2), the identity-manager step deploys the v2 implementation and
issues exactly one upgrade transaction (`upgradeToAndCall`), returning the
v2 state with the proxy address identical to the recorded one; with a
Report entry already at v2, it issues zero transactions and returns the
recorded entry unchanged. -/
theorem identity_manager_upgrade_state_machine
    (report : Report) (config : Config) (groupId : Nat) (lookupTables : LookupTables)
    (freshImplV1 freshProxy freshImplV2 : Nat)
    (dep : WorldIdIdentityManagerDeployment) (glt : GroupLookupTables) (dt : LookupTable)
    (hdep : lookupL (identity_manager.report_identity_manager_groups report) groupId =
      some dep)
    (hglt : lookupL lookupTables.groups groupId = some glt)
    (hdt : glt.delete = some dt) :
    (dep.impl_v1_deployment.isSome = true → dep.impl_v2_deployment = none →
      identity_manager.deploy_world_id_identity_manager_v1_for_group report config
          groupId lookupTables freshImplV1 freshProxy freshImplV2 =
        some ({ impl_v1_deployment := none
                impl_v2_deployment := some ⟨freshImplV2⟩
                proxy_deployment := dep.proxy_deployment },
          [IdmAction.deployImplV2 freshImplV2,
           IdmAction.upgradeToAndCall dep.proxy_deployment.address freshImplV2
             dt.deployment.address])) ∧
    (dep.impl_v2_deployment.isSome = true →
      identity_manager.deploy_world_id_identity_manager_v1_for_group report config
          groupId lookupTables freshImplV1 freshProxy freshImplV2 = some (dep, [])) := by
  constructor
  · intro hv1 hv2
    simp [identity_manager.deploy_world_id_identity_manager_v1_for_group, hdep, hv1,
      hv2, identity_manager.upgrade_v1_to_v2, hglt, hdt]
  · intro hv2
    have hv2n : dep.impl_v2_deployment.isNone = false := by
      cases hx : dep.impl_v2_deployment with
      | none => rw [hx] at hv2; simp at hv2
      | some v => simp [hx]
    simp [identity_manager.deploy_world_id_identity_manager_v1_for_group, hdep, hv2,
      hv2n]

/-- C5 witness: group 3 at v1-only is driven to v2 in one upgrade
transaction, with the proxy address 41 preserved. -/
theorem identity_manager_upgrade_state_machine_witness :
    identity_manager.deploy_world_id_identity_manager_v1_for_group
      { config := ⟨[], ⟨0⟩⟩
        insertion_verifiers := none
        deletion_verifiers := none
        lookup_tables := none
        semaphore_verifier := none
        identity_managers := some ⟨[(3, ⟨some ⟨40⟩, none, ⟨41⟩⟩)]⟩
        world_id_router := none }
      ⟨[], ⟨0⟩⟩ 3 ⟨[(3, ⟨some ⟨⟨31⟩, []⟩, some ⟨⟨32⟩, []⟩, some ⟨⟨33⟩, []⟩⟩)]⟩
      90 91 92 =
    some ({ impl_v1_deployment := none
            impl_v2_deployment := some ⟨92⟩
            proxy_deployment := ⟨41⟩ },
      [IdmAction.deployImplV2 92, IdmAction.upgradeToAndCall 41 92 33]) :=
  (identity_manager_upgrade_state_machine
    { config := ⟨[], ⟨0⟩⟩
      insertion_verifiers := none
      deletion_verifiers := none
      lookup_tables := none
      semaphore_verifier := none
      identity_managers := some ⟨[(3, ⟨some ⟨40⟩, none, ⟨41⟩⟩)]⟩
      world_id_router := none }
    ⟨[], ⟨0⟩⟩ 3 ⟨[(3, ⟨some ⟨⟨31⟩, []⟩, some ⟨⟨32⟩, []⟩, some ⟨⟨33⟩, []⟩⟩)]⟩
    90 91 92 ⟨some ⟨40⟩, none, ⟨41⟩⟩ ⟨some ⟨⟨31⟩, []⟩, some ⟨⟨32⟩, []⟩, some ⟨⟨33⟩, []⟩⟩
    ⟨⟨33⟩, []⟩ (by decide) (by decide) (by decide)).1 (by decide) (by decide)

/-! ## Claim C10 -/

/-- C10: for a group present in config but absent from the Report, one
successful run of the identity-manager step returns the terminal v2 state
(impl v2 recorded, impl v1 discarded as none): a fresh deployment never
rests at the intermediate v1-only state. -/
theorem fresh_identity_manager_lands_at_v2
    (report : Report) (config : Config) (groupId : Nat) (lookupTables : LookupTables)
    (freshImplV1 freshProxy freshImplV2 : Nat)
    (gc : GroupConfig) (glt : GroupLookupTables) (it ut dt : LookupTable)
    (habs : lookupL (identity_manager.report_identity_manager_groups report) groupId =
      none)
    (hgc : lookupL config.groups groupId = some gc)
    (hglt : lookupL lookupTables.groups groupId = some glt)
    (hit : glt.insert = some it) (hut : glt.update = some ut)
    (hdt : glt.delete = some dt) :
    identity_manager.deploy_world_id_identity_manager_v1_for_group report config
        groupId lookupTables freshImplV1 freshProxy freshImplV2 =
      some ({ impl_v1_deployment := none
              impl_v2_deployment := some ⟨freshImplV2⟩
              proxy_deployment := ⟨freshProxy⟩ },
        [IdmAction.deployImplV1 freshImplV1,
         IdmAction.deployProxy freshProxy freshImplV1,
         IdmAction.deployImplV2 freshImplV2,
         IdmAction.upgradeToAndCall freshProxy freshImplV2
           dt.deployment.address]) := by
  simp [identity_manager.deploy_world_id_identity_manager_v1_for_group, habs, hgc,
    hglt, hit, hut, hdt, identity_manager.upgrade_v1_to_v2]

/-- C10 witness at a concrete fresh group. -/
theorem fresh_identity_manager_lands_at_v2_witness :
    identity_manager.deploy_world_id_identity_manager_v1_for_group
      (Report.default_with_config ⟨[(0, ⟨30, some [1], some [1], none⟩)], ⟨0⟩⟩)
      ⟨[(0, ⟨30, some [1], some [1], none⟩)], ⟨0⟩⟩ 0
      ⟨[(0, ⟨some ⟨⟨31⟩, []⟩, some ⟨⟨32⟩, []⟩, some ⟨⟨33⟩, []⟩⟩)]⟩ 90 91 92 =
    some ({ impl_v1_deployment := none
            impl_v2_deployment := some ⟨92⟩
            proxy_deployment := ⟨91⟩ },
      [IdmAction.deployImplV1 90, IdmAction.deployProxy 91 90,
       IdmAction.deployImplV2 92, IdmAction.upgradeToAndCall 91 92 33]) :=
  fresh_identity_manager_lands_at_v2
    (Report.default_with_config ⟨[(0, ⟨30, some [1], some [1], none⟩)], ⟨0⟩⟩)
    ⟨[(0, ⟨30, some [1], some [1], none⟩)], ⟨0⟩⟩ 0
    ⟨[(0, ⟨some ⟨⟨31⟩, []⟩, some ⟨⟨32⟩, []⟩, some ⟨⟨33⟩, []⟩⟩)]⟩ 90 91 92
    ⟨30, some [1], some [1], none⟩ ⟨some ⟨⟨31⟩, []⟩, some ⟨⟨32⟩, []⟩, some ⟨⟨33⟩, []⟩⟩
    ⟨⟨31⟩, []⟩ ⟨⟨32⟩, []⟩ ⟨⟨33⟩, []⟩ (by decide) (by decide) (by decide) (by decide)
    (by decide) (by decide)

/-! ## Claim C8 -/

/-- C8: two `get` callers parked before a single `set(42)`: `set` installs
the value and calls `notify_one`, which wakes exactly one waiter — the
final cell still has one parked waiter and only one served `get`, and no
later event ever wakes the survivor, so not all concurrent `get` calls
return.  Second conjunct: a `get` issued after `set` returns the value
without ever parking. -/
theorem dependency_map_notify_one_starves_waiter :
    dependency_map.run Nat
        [dependency_map.DepEvent.get, dependency_map.DepEvent.get,
         dependency_map.DepEvent.set 42] =
      ⟨some 42, false, 1, [42]⟩ ∧
    dependency_map.run Nat
        [dependency_map.DepEvent.set 42, dependency_map.DepEvent.get] =
      ⟨some 42, true, 0, [42]⟩ := by
  decide
